import Mathlib

/-!
Verification of the shelter-data acquisition pipeline of the Safr app
(`src/screens/MapScreen.tsx`, shelter-service section): the geo-record
normalizer, the persistent cache store, the multi-endpoint remote source
client, and the cache-first freshness orchestrator (`getShelters` /
`refreshShelters`).

Modelling conventions:
* JSON numbers (coordinates) are modelled as rationals `ℚ`; the pipeline
  never does arithmetic on them, it only passes them through.
* `AsyncStorage` is modelled as a `Storage` record holding the parsed
  content of the two keys (`@safr_shelters_cache`, `@safr_shelters_timestamp`);
  a stored payload that `JSON.parse` would reject is the `corrupt` state.
* Failure of the storage primitives (`getItem` / `setItem` rejecting) and
  the outcome of each HTTP endpoint are supplied by an `Env` oracle, so
  theorems quantify over every combination of effect outcomes.
* Promises/exceptions become `Except String`; `console.*` calls have no
  observable effect and are dropped (noted where a dropped branch exists).
-/

deriving instance DecidableEq for Except

namespace Safr

/-- A rational written as a reduced fraction. Decimal coordinate literals
of the source are written through this constructor (`45.1` is `q 451 10`)
so that they stay kernel-computable; the lemma `coordinate_literals`
below checks each against the source's decimal notation. -/
def q (n : Int) (d : Nat) (hd : d ≠ 0 := by decide)
    (hr : n.natAbs.Coprime d := by decide) : ℚ :=
  Rat.mk' n d hd hr

/-- The `Shelter['type']` union from the source. -/
inductive ShelterType
  | hospital
  | pharmacy
  | fire
  | police
  | bunker
  | unknown
deriving DecidableEq, Repr

/-- The `Shelter` interface: normalized facility record. -/
structure Shelter where
  id : String
  type : ShelterType
  lat : ℚ
  lng : ℚ
  name : String
  capacity : Option String := none
deriving DecidableEq, Repr

/-- The `OverpassElement.type` union. -/
inductive OsmType
  | node
  | way
  | relation
deriving DecidableEq, Repr

/-- The `center` object of a way/relation element. -/
structure OsmCenter where
  lat : ℚ
  lon : ℚ
deriving DecidableEq, Repr

/-- The `tags` object of an element (only the fields the pipeline reads). -/
structure OsmTags where
  name : Option String := none
  amenity : Option String := none
  capacity : Option String := none
deriving DecidableEq, Repr

/-- The `OverpassElement` interface: one raw element of an API response. -/
structure OverpassElement where
  type : OsmType
  id : Nat
  lat : Option ℚ := none
  lon : Option ℚ := none
  center : Option OsmCenter := none
  tags : Option OsmTags := none
deriving DecidableEq, Repr

/-- Provenance tag of `ShelterServiceResult.source`. -/
inductive Source
  | cache
  | api
  | fallback
deriving DecidableEq, Repr

/-- The `ShelterServiceResult` interface (the only caller-facing shape);
an absent `error` field is `none`. -/
structure ShelterServiceResult where
  shelters : List Shelter
  source : Source
  error : Option String := none
deriving DecidableEq, Repr

/-- Constant `CACHE_MAX_AGE`: 24 hours in milliseconds. -/
def CACHE_MAX_AGE : Nat := 24 * 60 * 60 * 1000

/-- Endpoint `OVERPASS_ENDPOINTS[0]`. -/
def overpassMain : String := "https://overpass-api.de/api/interpreter"

/-- Endpoint `OVERPASS_ENDPOINTS[1]`. -/
def overpassLz4 : String := "https://lz4.overpass-api.de/api/interpreter"

/-- Endpoint `OVERPASS_ENDPOINTS[2]`. -/
def overpassKumi : String := "https://overpass.kumi.systems/api/interpreter"

/-- The prioritized endpoint list `OVERPASS_ENDPOINTS`. -/
def OVERPASS_ENDPOINTS : List String := [overpassMain, overpassLz4, overpassKumi]

/-- Constant `FALLBACK_SHELTERS`: the bundled static dataset (5 entries). -/
def FALLBACK_SHELTERS : List Shelter := [
  { id := "fallback_1", type := .hospital,                      -- 45.738205, 21.242398
    lat := q 9147641 200000, lng := q 10621199 500000,
    name := "Spitalul Județean Timișoara" },
  { id := "fallback_2", type := .hospital,                      -- 45.747479, 21.226180
    lat := q 45747479 1000000, lng := q 1061309 50000,
    name := "Spitalul Municipal" },
  { id := "fallback_3", type := .fire,                          -- 45.755800, 21.228900
    lat := q 228779 5000, lng := q 212289 10000,
    name := "Stație Pompieri Centru" },
  { id := "fallback_4", type := .pharmacy,                      -- 45.753200, 21.225600
    lat := q 114383 2500, lng := q 13266 625,
    name := "Farmacie Centrală" },
  { id := "fallback_5", type := .police,                        -- 45.754100, 21.226800
    lat := q 457541 10000, lng := q 53067 2500,
    name := "Poliția Municipiului Timișoara" }]

/-- Function `mapAmenityToType`: fixed dictionary from OSM amenity tag to `ShelterType`. -/
def mapAmenityToType (amenity : Option String) : ShelterType :=
  match amenity with
  | some "hospital" => .hospital
  | some "pharmacy" => .pharmacy
  | some "fire_station" => .fire
  | some "police" => .police
  | some "shelter" => .bunker
  | _ => .unknown

/-- A latitude/longitude pair as returned by `extractCoordinates`. -/
structure Coords where
  lat : ℚ
  lng : ℚ
deriving DecidableEq, Repr

/-- Function `extractCoordinates`: nodes use their own `lat`/`lon` (both must be
present), ways and relations use their `center`; anything else yields
`null`. -/
def extractCoordinates (element : OverpassElement) : Option Coords :=
  match element.type, element.lat, element.lon with
  | .node, some lat, some lon => some { lat := lat, lng := lon }
  | _, _, _ =>
    match element.type, element.center with
    | .way, some c => some { lat := c.lat, lng := c.lon }
    | .relation, some c => some { lat := c.lat, lng := c.lon }
    | _, _ => none

/-- The string value of the `Shelter['type']` union member. -/
def shelterTypeStr : ShelterType → String
  | .hospital => "hospital"
  | .pharmacy => "pharmacy"
  | .fire => "fire"
  | .police => "police"
  | .bunker => "bunker"
  | .unknown => "unknown"

/-- The string value of the `OverpassElement.type` union member. -/
def osmTypeStr : OsmType → String
  | .node => "node"
  | .way => "way"
  | .relation => "relation"

/-- Expression `s.charAt(0).toUpperCase() + s.slice(1)` of the source. -/
def capitalizeFirst (s : String) : String :=
  match s.data with
  | [] => ""
  | c :: cs => String.mk (c.toUpper :: cs)

/-- JavaScript `a || b` on an optional string: the empty string is falsy. -/
def jsOrString (a : Option String) (b : String) : String :=
  match a with
  | some s => if s = "" then b else s
  | none => b

/-- Function `transformToShelter`: normalize one raw element to a `Shelter`, or
`null` when no coordinates are resolvable. -/
def transformToShelter (element : OverpassElement) : Option Shelter :=
  match extractCoordinates element with
  | none => none
  | some coords =>
    let t := mapAmenityToType (element.tags.bind OsmTags.amenity)
    let name := jsOrString (element.tags.bind OsmTags.name)
      (capitalizeFirst (shelterTypeStr t) ++ " #" ++ toString element.id)
    some {
      id := "osm_" ++ osmTypeStr element.type ++ "_" ++ toString element.id
      type := t
      lat := coords.lat
      lng := coords.lng
      name := name
      capacity := element.tags.bind OsmTags.capacity }

/-- Parsed content of the `@safr_shelters_cache` key: never written,
unparseable payload, or a parseable shelter list. -/
inductive StoredData
  | absent
  | corrupt
  | valid (shelters : List Shelter)
deriving DecidableEq, Repr

/-- The two `AsyncStorage` keys owned by the cache store. -/
structure Storage where
  data : StoredData
  timestamp : Option Nat
deriving DecidableEq, Repr

/-- What one endpoint's HTTP body looks like when the request resolves:
either it lacks an `elements` array (`!data.elements || !Array.isArray`)
or it carries one. -/
inductive ResponseBody
  | invalidShape
  | elements (es : List OverpassElement)
deriving DecidableEq

/-- Outcome of one `axios.post` to an endpoint: the promise rejects
(timeout, transport error, non-2xx, ...) with an error message, or it
resolves with a body. -/
inductive EndpointOutcome
  | throws (msg : String)
  | responds (body : ResponseBody)
deriving DecidableEq

/-- Oracle for the effectful context of one orchestrated request:
per-endpoint HTTP outcomes, whether the storage primitives reject, and
the value of `Date.now()`. -/
structure Env where
  endpoints : String → EndpointOutcome
  loadFails : Bool
  saveFails : Bool
  now : Nat

/-- Function `loadFromCache`: read both keys; a rejected read or an unparseable
payload is caught and yields `null`; an exceeded cache age is only
logged (`cacheAge > CACHE_MAX_AGE` has no effect on the returned data). -/
def loadFromCache (env : Env) (st : Storage) : Option (List Shelter) :=
  if env.loadFails then none
  else
    match st.data with
    | .absent => none
    | .corrupt => none
    | .valid shelters => some shelters

/-- Predicate `cacheIsStale`: the condition `Date.now() - parseInt(timestampStr) >
CACHE_MAX_AGE` that `loadFromCache` logs (and nothing else). -/
def cacheIsStale (env : Env) (st : Storage) : Bool :=
  match st.timestamp with
  | some ts => decide (env.now - ts > CACHE_MAX_AGE)
  | none => false

/-- Function `saveToCache`: replace both keys, stamping `Date.now()`; a rejected
write is caught and logged (modelled as leaving the store unchanged). -/
def saveToCache (env : Env) (shelters : List Shelter) (st : Storage) : Storage :=
  if env.saveFails then st
  else { data := .valid shelters, timestamp := some env.now }

/-- The loop body of `fetchFromAPI`: iterate the remaining endpoints
carrying `lastError`; a thrown request records its message, a response
without an `elements` array is skipped (`continue`) leaving `lastError`
unchanged, and a response with an `elements` array ends the loop with
the normalized, null-filtered list. When the endpoints are exhausted the
operation throws `lastError || new Error('All Overpass API endpoints
failed')`. -/
def fetchLoop (env : Env) : List String → Option String → Except String (List Shelter)
  | [], lastError => .error (lastError.getD "All Overpass API endpoints failed")
  | endpoint :: rest, lastError =>
    match env.endpoints endpoint with
    | .throws msg => fetchLoop env rest (some msg)
    | .responds .invalidShape => fetchLoop env rest lastError
    | .responds (.elements es) => .ok (es.filterMap transformToShelter)

/-- Function `fetchFromAPI`: try `OVERPASS_ENDPOINTS` in order. -/
def fetchFromAPI (env : Env) : Except String (List Shelter) :=
  fetchLoop env OVERPASS_ENDPOINTS none

/-- Ghost observer of the `fetchFromAPI` loop: the endpoints contacted, in
order (the loop stops at the first structurally valid response). -/
def fetchAttemptsLoop (env : Env) : List String → List String
  | [] => []
  | endpoint :: rest =>
    match env.endpoints endpoint with
    | .responds (.elements _) => [endpoint]
    | _ => endpoint :: fetchAttemptsLoop env rest

/-- The endpoints `fetchFromAPI` contacts, in order. -/
def fetchAttempts (env : Env) : List String := fetchAttemptsLoop env OVERPASS_ENDPOINTS

/-- Whether an endpoint fails under `env` (request rejects, or the body
lacks the `elements` array). -/
def endpointFails (env : Env) (endpoint : String) : Bool :=
  match env.endpoints endpoint with
  | .throws _ => true
  | .responds .invalidShape => true
  | .responds (.elements _) => false

/-- The result returned when neither live nor cached data is usable. -/
def fallbackResult : ShelterServiceResult :=
  { shelters := FALLBACK_SHELTERS, source := .fallback,
    error := some "No network connection and no cached data available" }

/-- The `try` block of `getShelters` step 2: `none` means control falls
through to the final fallback return. -/
def getSheltersAttempt (env : Env) (st : Storage)
    (cachedShelters : Option (List Shelter)) :
    Except String (Option (ShelterServiceResult × Storage)) := do
  let apiShelters ← fetchFromAPI env
  if apiShelters.length > 0 then
    let st' := saveToCache env apiShelters st
    return some ({ shelters := apiShelters, source := .api }, st')
  else
    match cachedShelters with
    | some cached =>
      if cached.length > 0 then
        return some ({ shelters := cached, source := .cache,
                       error := some "API returned empty results, using cached data" }, st)
      else
        return none
    | none => return none

/-- Function `getShelters`: cache-first orchestrated request. Step 1 loads the
cache (its own errors are caught inside `loadFromCache`); step 2 tries
the API, catching any exception and falling back to the cache; step 3
returns the bundled fallback when both were unusable. -/
def getShelters (env : Env) (st : Storage) :
    Except String (ShelterServiceResult × Storage) :=
  let cachedShelters := loadFromCache env st
  let attempt := tryCatch (getSheltersAttempt env st cachedShelters)
    (fun msg =>
      match cachedShelters with
      | some cached =>
        if cached.length > 0 then
          pure (some ({ shelters := cached, source := .cache,
                        error := some ("API unavailable: " ++ msg) }, st))
        else
          pure none
      | none => pure none)
  match attempt with
  | .ok (some result) => .ok result
  | .ok none => .ok (fallbackResult, st)
  | .error msg => .error msg

/-- The `try` block of `refreshShelters`. -/
def refreshSheltersAttempt (env : Env) (st : Storage) :
    Except String (ShelterServiceResult × Storage) := do
  let apiShelters ← fetchFromAPI env
  if apiShelters.length > 0 then
    let st' := saveToCache env apiShelters st
    return ({ shelters := apiShelters, source := .api }, st')
  else
    match loadFromCache env st with
    | some cached =>
      if cached.length > 0 then
        return ({ shelters := cached, source := .cache,
                  error := some "Refresh returned empty results" }, st)
      else
        return ({ shelters := FALLBACK_SHELTERS, source := .fallback,
                  error := some "Refresh failed" }, st)
    | none =>
      return ({ shelters := FALLBACK_SHELTERS, source := .fallback,
                error := some "Refresh failed" }, st)

/-- Function `refreshShelters`: forced refresh; on any exception it retries the
cache and otherwise returns the bundled fallback, embedding the error
message. -/
def refreshShelters (env : Env) (st : Storage) :
    Except String (ShelterServiceResult × Storage) :=
  tryCatch (refreshSheltersAttempt env st)
    (fun msg =>
      match loadFromCache env st with
      | some cached =>
        if cached.length > 0 then
          pure ({ shelters := cached, source := .cache,
                  error := some ("Refresh failed: " ++ msg) }, st)
        else
          pure ({ shelters := FALLBACK_SHELTERS, source := .fallback,
                  error := some ("Refresh failed: " ++ msg) }, st)
      | none =>
        pure ({ shelters := FALLBACK_SHELTERS, source := .fallback,
                error := some ("Refresh failed: " ++ msg) }, st))

/-- The message a transport failure at `endpoint` carries, if any (a
structurally invalid response carries none: the source only records
`lastError` inside `catch`). -/
def throwMsg (env : Env) (endpoint : String) : Option String :=
  match env.endpoints endpoint with
  | .throws msg => some msg
  | .responds _ => none

/-- The message of the last endpoint in the list whose request threw:
the final value of the source's `lastError` variable after iterating
these endpoints. -/
def lastThrownMsg (env : Env) : List String → Option String
  | [] => none
  | endpoint :: rest => (lastThrownMsg env rest).or (throwMsg env endpoint)

/-- The warning text the source logs for a structurally invalid response. -/
def invalidShapeMsg (endpoint : String) : String :=
  "Invalid response from " ++ endpoint

/-- Follows the claim's words, for comparison with `fetchLoop`: the variant
of the loop in which a structurally invalid response is recorded as the
last observed error, identically to a transport error. -/
def fetchLoopClaim (env : Env) : List String → Option String → Except String (List Shelter)
  | [], lastError => .error (lastError.getD "All Overpass API endpoints failed")
  | endpoint :: rest, lastError =>
    match env.endpoints endpoint with
    | .throws msg => fetchLoopClaim env rest (some msg)
    | .responds .invalidShape => fetchLoopClaim env rest (some (invalidShapeMsg endpoint))
    | .responds (.elements es) => .ok (es.filterMap transformToShelter)

/-- Function `fetchFromAPI` under the claim's reading of error recording. -/
def fetchFromAPIClaim (env : Env) : Except String (List Shelter) :=
  fetchLoopClaim env OVERPASS_ENDPOINTS none

/-! Concrete fixtures used by witness theorems. -/

/-- Scenario D's raw element: a way with a centroid, hospital amenity and
a name tag. `q 451 10` is `45.1`, `q 106 5` is `21.2`. -/
def wayElem42 : OverpassElement :=
  { type := .way, id := 42, center := some { lat := q 451 10, lon := q 106 5 },
    tags := some { amenity := some "hospital", name := some "City Hospital" } }

/-- A node with the same numeric id and tags as `wayElem42`. -/
def nodeElem42 : OverpassElement :=
  { type := .node, id := 42, lat := some (q 451 10), lon := some (q 106 5),
    tags := some { amenity := some "hospital", name := some "City Hospital" } }

/-- A node element carrying neither `lat`/`lon` nor a `center`. -/
def badElem : OverpassElement := { type := .node, id := 7 }

/-- The normalized form of `wayElem42`. -/
def cityHospitalShelter : Shelter :=
  { id := "osm_way_42", type := .hospital, lat := q 451 10, lng := q 106 5,
    name := "City Hospital", capacity := none }

/-- The normalized form of `nodeElem42`. -/
def cityHospitalNodeShelter : Shelter :=
  { id := "osm_node_42", type := .hospital, lat := q 451 10, lng := q 106 5,
    name := "City Hospital", capacity := none }

/-- A minimal well-formed shelter record. -/
def shelterA : Shelter :=
  { id := "a", type := .hospital, lat := q 1 1, lng := q 2 1, name := "A" }

/-- Storage with nothing ever written. -/
def stEmpty : Storage := { data := .absent, timestamp := none }

/-- Storage holding a previously saved non-empty list. -/
def stWithA : Storage := { data := .valid [shelterA], timestamp := some 5 }

/-- Every endpoint's request rejects with "boom"; storage works. -/
def envAllThrow : Env :=
  { endpoints := fun _ => .throws "boom", loadFails := false, saveFails := false, now := 0 }

/-- Every endpoint responds with the single raw element `wayElem42`. -/
def envOneElem : Env :=
  { endpoints := fun _ => .responds (.elements [wayElem42]),
    loadFails := false, saveFails := false, now := 1000 }

/-- Every endpoint responds structurally valid with zero elements. -/
def envEmptyElems : Env :=
  { endpoints := fun _ => .responds (.elements []),
    loadFails := false, saveFails := false, now := 7 }

/-- Endpoint 1 times out, endpoint 2 answers with zero elements,
endpoint 3 would answer with one element (but is never contacted). -/
def envSecondValid : Env :=
  { endpoints := fun ep =>
      if ep = overpassMain then .throws "timeout of 30000ms exceeded"
      else if ep = overpassLz4 then .responds (.elements [])
      else .responds (.elements [wayElem42]),
    loadFails := false, saveFails := false, now := 0 }

/-- Endpoint 1 throws "boom"; endpoints 2 and 3 respond without an
`elements` array, so the last failure observed is structural. -/
def envBoomThenInvalid : Env :=
  { endpoints := fun ep =>
      if ep = overpassMain then .throws "boom" else .responds .invalidShape,
    loadFails := false, saveFails := false, now := 0 }

/-- Working storage at time 0. -/
def envSave : Env :=
  { endpoints := fun _ => .throws "offline", loadFails := false, saveFails := false, now := 0 }

/-- Working storage read much later than `CACHE_MAX_AGE` after `envSave`. -/
def envStale : Env :=
  { endpoints := fun _ => .throws "offline", loadFails := false, saveFails := false,
    now := 200000000 }

/-! Case-analysis helpers and the claim theorems. -/

/-- Each `q`-written coordinate of `FALLBACK_SHELTERS` equals the decimal
literal appearing in the source. -/
theorem coordinate_literals :
    (q 9147641 200000 : ℚ) = 45.738205 ∧ (q 10621199 500000 : ℚ) = 21.242398 ∧
    (q 45747479 1000000 : ℚ) = 45.747479 ∧ (q 1061309 50000 : ℚ) = 21.226180 ∧
    (q 228779 5000 : ℚ) = 45.755800 ∧ (q 212289 10000 : ℚ) = 21.228900 ∧
    (q 114383 2500 : ℚ) = 45.753200 ∧ (q 13266 625 : ℚ) = 21.225600 ∧
    (q 457541 10000 : ℚ) = 45.754100 ∧ (q 53067 2500 : ℚ) = 21.226800 := by
  refine ⟨?_, ?_, ?_, ?_, ?_, ?_, ?_, ?_, ?_, ?_⟩ <;>
    · rw [q, Rat.mk'_eq_divInt]
      norm_num [Rat.divInt_eq_div]

/-- Branch lemma for `getShelters`, api branch: a successful fetch with a non-empty
normalized list is saved and returned tagged `api` with no error. -/
lemma getShelters_api (env : Env) (st : Storage) (es : List Shelter)
    (hfetch : fetchFromAPI env = .ok es) (hne : es ≠ []) :
    getShelters env st = .ok ({ shelters := es, source := .api, error := none },
                              saveToCache env es st) := by
  unfold getShelters getSheltersAttempt
  rw [hfetch]
  simp [tryCatch, tryCatchThe, MonadExceptOf.tryCatch, instMonadExceptOfExcept,
        Except.tryCatch, bind, Except.bind, pure, Except.pure, List.length_pos, hne]

/-- Branch lemma for `getShelters`, cache branch after an empty api result. -/
lemma getShelters_emptyApi_cache (env : Env) (st : Storage) (c : List Shelter)
    (hfetch : fetchFromAPI env = .ok []) (hload : loadFromCache env st = some c)
    (hne : c ≠ []) :
    getShelters env st = .ok ({ shelters := c, source := .cache,
                                error := some "API returned empty results, using cached data" },
                              st) := by
  unfold getShelters getSheltersAttempt
  rw [hfetch, hload]
  simp [tryCatch, tryCatchThe, MonadExceptOf.tryCatch, instMonadExceptOfExcept,
        Except.tryCatch, bind, Except.bind, pure, Except.pure, List.length_pos, hne]

/-- Branch lemma for `getShelters`, cache branch after a failed fetch. -/
lemma getShelters_err_cache (env : Env) (st : Storage) (c : List Shelter) (msg : String)
    (hfetch : fetchFromAPI env = .error msg) (hload : loadFromCache env st = some c)
    (hne : c ≠ []) :
    getShelters env st = .ok ({ shelters := c, source := .cache,
                                error := some ("API unavailable: " ++ msg) },
                              st) := by
  unfold getShelters getSheltersAttempt
  rw [hfetch, hload]
  simp [tryCatch, tryCatchThe, MonadExceptOf.tryCatch, instMonadExceptOfExcept,
        Except.tryCatch, bind, Except.bind, pure, Except.pure, List.length_pos, hne]

/-- Branch lemma for `getShelters`, bundled-fallback branch: unusable live result and
unusable cache. -/
lemma getShelters_fallback (env : Env) (st : Storage)
    (hfetch : fetchFromAPI env = .ok [] ∨ ∃ msg, fetchFromAPI env = .error msg)
    (hload : loadFromCache env st = none ∨ loadFromCache env st = some []) :
    getShelters env st = .ok (fallbackResult, st) := by
  unfold getShelters getSheltersAttempt
  rcases hfetch with h | ⟨msg, h⟩ <;> rcases hload with h2 | h2 <;> rw [h, h2] <;>
    simp [tryCatch, tryCatchThe, MonadExceptOf.tryCatch, instMonadExceptOfExcept,
          Except.tryCatch, bind, Except.bind, pure, Except.pure]

/-- Branch lemma for `refreshShelters`, api branch. -/
lemma refreshShelters_api (env : Env) (st : Storage) (es : List Shelter)
    (hfetch : fetchFromAPI env = .ok es) (hne : es ≠ []) :
    refreshShelters env st = .ok ({ shelters := es, source := .api, error := none },
                                  saveToCache env es st) := by
  unfold refreshShelters refreshSheltersAttempt
  rw [hfetch]
  simp [tryCatch, tryCatchThe, MonadExceptOf.tryCatch, instMonadExceptOfExcept,
        Except.tryCatch, bind, Except.bind, pure, Except.pure, List.length_pos, hne]

/-- Branch lemma for `refreshShelters`, cache branch after an empty api result. -/
lemma refreshShelters_emptyApi_cache (env : Env) (st : Storage) (c : List Shelter)
    (hfetch : fetchFromAPI env = .ok []) (hload : loadFromCache env st = some c)
    (hne : c ≠ []) :
    refreshShelters env st = .ok ({ shelters := c, source := .cache,
                                    error := some "Refresh returned empty results" },
                                  st) := by
  unfold refreshShelters refreshSheltersAttempt
  rw [hfetch, hload]
  simp [tryCatch, tryCatchThe, MonadExceptOf.tryCatch, instMonadExceptOfExcept,
        Except.tryCatch, bind, Except.bind, pure, Except.pure, List.length_pos, hne]

/-- Branch lemma for `refreshShelters`, fallback branch after an empty api result. -/
lemma refreshShelters_emptyApi_fallback (env : Env) (st : Storage)
    (hfetch : fetchFromAPI env = .ok [])
    (hload : loadFromCache env st = none ∨ loadFromCache env st = some []) :
    refreshShelters env st = .ok ({ shelters := FALLBACK_SHELTERS, source := .fallback,
                                    error := some "Refresh failed" },
                                  st) := by
  unfold refreshShelters refreshSheltersAttempt
  rcases hload with h2 | h2 <;> rw [hfetch, h2] <;>
    simp [tryCatch, tryCatchThe, MonadExceptOf.tryCatch, instMonadExceptOfExcept,
          Except.tryCatch, bind, Except.bind, pure, Except.pure]

/-- Branch lemma for `refreshShelters`, cache branch after a failed fetch. -/
lemma refreshShelters_err_cache (env : Env) (st : Storage) (c : List Shelter) (msg : String)
    (hfetch : fetchFromAPI env = .error msg) (hload : loadFromCache env st = some c)
    (hne : c ≠ []) :
    refreshShelters env st = .ok ({ shelters := c, source := .cache,
                                    error := some ("Refresh failed: " ++ msg) },
                                  st) := by
  unfold refreshShelters refreshSheltersAttempt
  rw [hfetch]
  simp [tryCatch, tryCatchThe, MonadExceptOf.tryCatch, instMonadExceptOfExcept,
        Except.tryCatch, bind, Except.bind, pure, Except.pure, List.length_pos, hne, hload]

/-- Branch lemma for `refreshShelters`, fallback branch after a failed fetch. -/
lemma refreshShelters_err_fallback (env : Env) (st : Storage) (msg : String)
    (hfetch : fetchFromAPI env = .error msg)
    (hload : loadFromCache env st = none ∨ loadFromCache env st = some []) :
    refreshShelters env st = .ok ({ shelters := FALLBACK_SHELTERS, source := .fallback,
                                    error := some ("Refresh failed: " ++ msg) },
                                  st) := by
  unfold refreshShelters refreshSheltersAttempt
  rcases hload with h2 | h2 <;> rw [hfetch] <;>
    simp [tryCatch, tryCatchThe, MonadExceptOf.tryCatch, instMonadExceptOfExcept,
          Except.tryCatch, bind, Except.bind, pure, Except.pure, h2]

/-- Helper: a string of length zero is the empty string. -/
lemma eq_empty_of_length_zero (s : String) (h : s.length = 0) : s = "" := by
  cases s with
  | mk data =>
    cases data with
    | nil => rfl
    | cons c cs => exact absurd h (by simp [String.length])

/-- Helper: prepending a non-empty string never yields the empty string. -/
lemma append_ne_empty (s t : String) (hs : s ≠ "") : s ++ t ≠ "" := by
  intro h
  apply hs
  have hlen := congrArg String.length h
  rw [String.length_append, show ("" : String).length = 0 from rfl] at hlen
  exact eq_empty_of_length_zero s (by omega)

/-- Trichotomy on the outcome of `fetchFromAPI`. -/
lemma fetch_cases (env : Env) :
    (∃ es, fetchFromAPI env = .ok es ∧ es ≠ []) ∨ fetchFromAPI env = .ok [] ∨
    (∃ msg, fetchFromAPI env = .error msg) := by
  cases h : fetchFromAPI env with
  | error msg => exact Or.inr (Or.inr ⟨msg, rfl⟩)
  | ok es =>
    cases eq_or_ne es [] with
    | inl he => subst he; exact Or.inr (Or.inl rfl)
    | inr he => exact Or.inl ⟨es, rfl, he⟩

/-- Trichotomy on the outcome of `loadFromCache`. -/
lemma load_cases (env : Env) (st : Storage) :
    (∃ c, loadFromCache env st = some c ∧ c ≠ []) ∨
    (loadFromCache env st = none ∨ loadFromCache env st = some []) := by
  cases h : loadFromCache env st with
  | none => exact Or.inr (Or.inl rfl)
  | some c =>
    cases eq_or_ne c [] with
    | inl hc => subst hc; exact Or.inr (Or.inr rfl)
    | inr hc => exact Or.inl ⟨c, rfl, hc⟩

/-- C1: for every cache state and every outcome of the remote fetch
(success with any element list, or failure), `getShelters` returns a
result whose `shelters` array is non-empty: the api branch requires at
least one record, the cache branch requires a non-empty cached list, and
otherwise the non-empty bundled fallback list is returned. -/
theorem getShelters_never_empty (env : Env) (st : Storage)
    (r : ShelterServiceResult) (st' : Storage)
    (h : getShelters env st = .ok (r, st')) : r.shelters ≠ [] := by
  rcases fetch_cases env with ⟨es, hf, hne⟩ | hf | ⟨msg, hf⟩
  · rw [getShelters_api env st es hf hne] at h
    simp only [Except.ok.injEq, Prod.mk.injEq] at h
    rw [← h.1]
    simpa using hne
  · rcases load_cases env st with ⟨c, hl, hcne⟩ | hl
    · rw [getShelters_emptyApi_cache env st c hf hl hcne] at h
      simp only [Except.ok.injEq, Prod.mk.injEq] at h
      rw [← h.1]; simpa using hcne
    · rw [getShelters_fallback env st (Or.inl hf) hl] at h
      simp only [Except.ok.injEq, Prod.mk.injEq] at h
      rw [← h.1]; decide
  · rcases load_cases env st with ⟨c, hl, hcne⟩ | hl
    · rw [getShelters_err_cache env st c msg hf hl hcne] at h
      simp only [Except.ok.injEq, Prod.mk.injEq] at h
      rw [← h.1]; simpa using hcne
    · rw [getShelters_fallback env st (Or.inr ⟨msg, hf⟩) hl] at h
      simp only [Except.ok.injEq, Prod.mk.injEq] at h
      rw [← h.1]; decide

/-- Witness for C1: on empty storage with every endpoint throwing,
`getShelters` returns the fallback result, whose list is non-empty. -/
theorem getShelters_never_empty_witness : fallbackResult.shelters ≠ [] :=
  getShelters_never_empty envAllThrow stEmpty fallbackResult stEmpty (by decide)

/-- C2: `getShelters` and `refreshShelters` never throw: for every
combination of cache-load outcome, cache-save outcome and remote-fetch
outcome (including a fetch that raises), each operation resolves to a
valid result tagged `api`, `cache` or `fallback` rather than propagating
an exception. -/
theorem pipeline_never_throws (env : Env) (st : Storage) :
    (∃ p, getShelters env st = .ok p ∧
       (p.1.source = .api ∨ p.1.source = .cache ∨ p.1.source = .fallback)) ∧
    (∃ p, refreshShelters env st = .ok p ∧
       (p.1.source = .api ∨ p.1.source = .cache ∨ p.1.source = .fallback)) := by
  constructor
  · rcases fetch_cases env with ⟨es, hf, hne⟩ | hf | ⟨msg, hf⟩
    · exact ⟨_, getShelters_api env st es hf hne, Or.inl rfl⟩
    · rcases load_cases env st with ⟨c, hl, hcne⟩ | hl
      · exact ⟨_, getShelters_emptyApi_cache env st c hf hl hcne, Or.inr (Or.inl rfl)⟩
      · exact ⟨_, getShelters_fallback env st (Or.inl hf) hl, Or.inr (Or.inr rfl)⟩
    · rcases load_cases env st with ⟨c, hl, hcne⟩ | hl
      · exact ⟨_, getShelters_err_cache env st c msg hf hl hcne, Or.inr (Or.inl rfl)⟩
      · exact ⟨_, getShelters_fallback env st (Or.inr ⟨msg, hf⟩) hl, Or.inr (Or.inr rfl)⟩
  · rcases fetch_cases env with ⟨es, hf, hne⟩ | hf | ⟨msg, hf⟩
    · exact ⟨_, refreshShelters_api env st es hf hne, Or.inl rfl⟩
    · rcases load_cases env st with ⟨c, hl, hcne⟩ | hl
      · exact ⟨_, refreshShelters_emptyApi_cache env st c hf hl hcne, Or.inr (Or.inl rfl)⟩
      · exact ⟨_, refreshShelters_emptyApi_fallback env st hf hl, Or.inr (Or.inr rfl)⟩
    · rcases load_cases env st with ⟨c, hl, hcne⟩ | hl
      · exact ⟨_, refreshShelters_err_cache env st c msg hf hl hcne, Or.inr (Or.inl rfl)⟩
      · exact ⟨_, refreshShelters_err_fallback env st msg hf hl, Or.inr (Or.inr rfl)⟩

/-- C3: if the remote fetch succeeds with at least one normalized record
and the store accepts the write, `getShelters` returns exactly those
records tagged `api` and the persisted cache is overwritten in full with
exactly those records plus the current timestamp. -/
theorem api_success_overwrites_cache (env : Env) (st : Storage) (es : List Shelter)
    (hfetch : fetchFromAPI env = .ok es) (hne : es ≠ [])
    (hsave : env.saveFails = false) :
    getShelters env st = .ok ({ shelters := es, source := .api, error := none },
                              { data := .valid es, timestamp := some env.now }) := by
  rw [getShelters_api env st es hfetch hne]
  simp [saveToCache, hsave]

/-- Witness for C3: one raw way element normalizes to one record, is
returned tagged `api`, and overwrites the empty storage with timestamp
1000. -/
theorem api_success_overwrites_cache_witness :
    getShelters envOneElem stEmpty =
      .ok ({ shelters := [cityHospitalShelter], source := .api, error := none },
           { data := .valid [cityHospitalShelter], timestamp := some 1000 }) :=
  api_success_overwrites_cache envOneElem stEmpty [cityHospitalShelter]
    (by decide) (by decide) (by decide)

/-- Counterexample to C4 as stated: `saveToCache` itself has no
non-emptiness guard; applied to the empty list over a storage holding a
previously saved non-empty cache, it replaces both keys. -/
theorem saveToCache_empty_persists :
    saveToCache envSave [] stWithA ≠ stWithA ∧
    saveToCache envSave [] stWithA = { data := .valid [], timestamp := some 0 } := by
  decide

/-- C4 as amended: the non-emptiness guard lives in the orchestrator, not
in the store's save: when the remote fetch yields zero records or fails,
`getShelters` never calls `saveToCache`, so a previously-saved cache
(both keys) is left unchanged. -/
theorem empty_fetch_preserves_cache (env : Env) (st : Storage)
    (hfetch : fetchFromAPI env = .ok [] ∨ ∃ msg, fetchFromAPI env = .error msg)
    (r : ShelterServiceResult) (st' : Storage)
    (h : getShelters env st = .ok (r, st')) : st' = st := by
  have hb : ∀ a : ShelterServiceResult × Storage,
      getShelters env st = .ok a → a.2 = st → st' = st := by
    intro a ha h2
    rw [ha] at h
    simp only [Except.ok.injEq] at h
    rw [h] at h2
    simpa using h2
  rcases hfetch with hf | ⟨msg, hf⟩
  · rcases load_cases env st with ⟨c, hl, hcne⟩ | hl
    · exact hb _ (getShelters_emptyApi_cache env st c hf hl hcne) rfl
    · exact hb _ (getShelters_fallback env st (Or.inl hf) hl) rfl
  · rcases load_cases env st with ⟨c, hl, hcne⟩ | hl
    · exact hb _ (getShelters_err_cache env st c msg hf hl hcne) rfl
    · exact hb _ (getShelters_fallback env st (Or.inr ⟨msg, hf⟩) hl) rfl

/-- Witness for C4 as amended: a structurally valid zero-element response
leaves the previously saved cache `stWithA` unchanged. -/
theorem empty_fetch_preserves_cache_witness :
    ({ data := .valid [shelterA], timestamp := some 5 } : Storage) = stWithA :=
  empty_fetch_preserves_cache envEmptyElems stWithA (Or.inl (by decide))
    { shelters := [shelterA], source := .cache,
      error := some "API returned empty results, using cached data" }
    { data := .valid [shelterA], timestamp := some 5 }
    (by decide)

/-- C5: a raw element with no resolvable coordinates is silently excluded
from the normalized output (no error raised), and every record in the
normalized output carries exactly the finite coordinates extracted from
its source element. -/
theorem normalizer_drops_coordinateless (es : List OverpassElement) :
    (∀ e ∈ es, extractCoordinates e = none → transformToShelter e = none) ∧
    (∀ s ∈ es.filterMap transformToShelter,
       ∃ e ∈ es, transformToShelter e = some s ∧
         extractCoordinates e = some { lat := s.lat, lng := s.lng }) := by
  constructor
  · intro e _ h
    simp [transformToShelter, h]
  · intro s hs
    rcases List.mem_filterMap.mp hs with ⟨e, he, ht⟩
    refine ⟨e, he, ht, ?_⟩
    unfold transformToShelter at ht
    cases hc : extractCoordinates e with
    | none => rw [hc] at ht; cases ht
    | some coords =>
      rw [hc] at ht
      simp only [Option.some.injEq] at ht
      subst ht
      rfl

/-- Witness for C5: the node element with neither `lat`/`lon` nor a
`center` normalizes to nothing. -/
theorem normalizer_drops_coordinateless_witness :
    transformToShelter badElem = none :=
  (normalizer_drops_coordinateless [badElem]).1 badElem (by decide) (by decide)

/-- C6: the Scenario D element normalizes to exactly the expected record
(`osm_way_42`, hospital, (45.1, 21.2), "City Hospital", no capacity); in
general the id is deterministically `osm_<element-type>_<numeric-id>`,
so a node and a way sharing a numeric id never collide. -/
theorem normalizer_scenario_d_id_stability :
    transformToShelter wayElem42 = some cityHospitalShelter ∧
    (∀ e s, transformToShelter e = some s →
       s.id = "osm_" ++ osmTypeStr e.type ++ "_" ++ toString e.id) ∧
    (∀ e₁ e₂ s₁ s₂, e₁.type = .node → e₂.type = .way → e₁.id = e₂.id →
       transformToShelter e₁ = some s₁ → transformToShelter e₂ = some s₂ →
       s₁.id ≠ s₂.id) := by
  have hid : ∀ e s, transformToShelter e = some s →
      s.id = "osm_" ++ osmTypeStr e.type ++ "_" ++ toString e.id := by
    intro e s ht
    unfold transformToShelter at ht
    cases hc : extractCoordinates e with
    | none => rw [hc] at ht; cases ht
    | some coords =>
      rw [hc] at ht
      simp only [Option.some.injEq] at ht
      subst ht
      rfl
  refine ⟨by decide, hid, ?_⟩
  intro e₁ e₂ s₁ s₂ h1 h2 hideq ht1 ht2
  rw [hid e₁ s₁ ht1, hid e₂ s₂ ht2, h1, h2, hideq]
  intro hcontra
  have hlen := congrArg String.length hcontra
  rw [show osmTypeStr .node = "node" from rfl, show osmTypeStr .way = "way" from rfl] at hlen
  simp only [String.length_append] at hlen
  rw [show ("osm_" : String).length = 4 from rfl, show ("node" : String).length = 4 from rfl,
      show ("way" : String).length = 3 from rfl] at hlen
  omega

/-- Witness for C6: the node and way sharing numeric id 42 receive
distinct ids (`osm_node_42` vs `osm_way_42`). -/
theorem normalizer_scenario_d_witness :
    cityHospitalNodeShelter.id ≠ cityHospitalShelter.id :=
  normalizer_scenario_d_id_stability.2.2 nodeElem42 wayElem42
    cityHospitalNodeShelter cityHospitalShelter rfl rfl rfl (by decide) (by decide)

/-- C7: the remote client tries endpoints strictly in configured priority
order and stops at the first structurally valid response even when its
element array is empty: if endpoint 1 fails and endpoint 2 is
structurally valid, the client returns endpoint 2's normalized list and
endpoint 3 is never contacted. -/
theorem endpoint_priority_stop (env : Env) (es : List OverpassElement)
    (h1 : endpointFails env overpassMain = true)
    (h2 : env.endpoints overpassLz4 = .responds (.elements es)) :
    fetchFromAPI env = .ok (es.filterMap transformToShelter) ∧
    fetchAttempts env = [overpassMain, overpassLz4] ∧
    overpassKumi ∉ fetchAttempts env := by
  have hm : (∃ m, env.endpoints overpassMain = .throws m) ∨
      env.endpoints overpassMain = .responds .invalidShape := by
    unfold endpointFails at h1
    cases he : env.endpoints overpassMain with
    | throws m => exact Or.inl ⟨m, rfl⟩
    | responds body =>
      cases body with
      | invalidShape => exact Or.inr rfl
      | elements es2 => rw [he] at h1; cases h1
  have hatt : fetchAttempts env = [overpassMain, overpassLz4] := by
    rcases hm with ⟨m, hm⟩ | hm <;>
      simp [fetchAttempts, OVERPASS_ENDPOINTS, fetchAttemptsLoop, hm, h2]
  refine ⟨?_, hatt, ?_⟩
  · rcases hm with ⟨m, hm⟩ | hm <;>
      simp [fetchFromAPI, OVERPASS_ENDPOINTS, fetchLoop, hm, h2]
  · rw [hatt]; decide

/-- Witness for C7: endpoint 1 times out, endpoint 2 answers with zero
elements; the result is the empty list and endpoint 3 (which would have
answered with data) is never contacted. -/
theorem endpoint_priority_stop_witness :
    fetchFromAPI envSecondValid = .ok [] ∧
    fetchAttempts envSecondValid = [overpassMain, overpassLz4] ∧
    overpassKumi ∉ fetchAttempts envSecondValid :=
  endpoint_priority_stop envSecondValid [] (by decide) (by decide)

/-- Counterexample to C8 as stated: with endpoint 1 throwing "boom" and
endpoints 2 and 3 structurally invalid, every endpoint fails, yet the
attached error is endpoint 1's transport error, not the last observed
failure; the claim's reading (structural failures recorded identically
to transport errors, `fetchFromAPIClaim`) yields a different error. -/
theorem structural_failure_not_recorded :
    (OVERPASS_ENDPOINTS.all fun ep => endpointFails envBoomThenInvalid ep) = true ∧
    fetchFromAPI envBoomThenInvalid = .error "boom" ∧
    fetchFromAPIClaim envBoomThenInvalid = .error (invalidShapeMsg overpassKumi) ∧
    fetchFromAPI envBoomThenInvalid ≠ fetchFromAPIClaim envBoomThenInvalid := by
  decide

/-- Helper for C8: when every endpoint in the list fails, the loop ends
with the last transport-error message seen (structural failures leave
`lastError` untouched), falling back to the generic message. -/
lemma fetchLoop_all_fail (env : Env) (eps : List String) (acc : Option String)
    (hall : ∀ ep ∈ eps, endpointFails env ep = true) :
    fetchLoop env eps acc =
      .error (((lastThrownMsg env eps).or acc).getD "All Overpass API endpoints failed") := by
  induction eps generalizing acc with
  | nil => simp [fetchLoop, lastThrownMsg]
  | cons ep rest ih =>
    have hep := hall ep (List.mem_cons_self ep rest)
    have hrest : ∀ e ∈ rest, endpointFails env e = true :=
      fun e he => hall e (List.mem_cons_of_mem ep he)
    cases he : env.endpoints ep with
    | throws m =>
      simp only [fetchLoop, he, lastThrownMsg, throwMsg]
      rw [ih (some m) hrest, Option.or_assoc, Option.or_some]
    | responds body =>
      cases body with
      | invalidShape =>
        simp only [fetchLoop, he, lastThrownMsg, throwMsg]
        rw [ih acc hrest, Option.or_none]
      | elements es2 =>
        unfold endpointFails at hep
        rw [he] at hep
        cases hep

/-- C8 as amended: if every endpoint fails, the operation fails with the
message of the last endpoint whose request threw; structural-shape
failures skip to the next endpoint but do not update the attached error,
and if no endpoint threw, the generic message is attached. -/
theorem all_fail_error_attribution (env : Env)
    (hall : ∀ ep ∈ OVERPASS_ENDPOINTS, endpointFails env ep = true) :
    fetchFromAPI env =
      .error ((lastThrownMsg env OVERPASS_ENDPOINTS).getD
              "All Overpass API endpoints failed") := by
  rw [fetchFromAPI, fetchLoop_all_fail env OVERPASS_ENDPOINTS none hall, Option.or_none]

/-- Witness for C8 as amended: when every endpoint throws "boom", the
operation fails with "boom". -/
theorem all_fail_error_attribution_witness :
    fetchFromAPI envAllThrow = .error "boom" :=
  (all_fail_error_attribution envAllThrow (by decide)).trans (by decide)

/-- C9: for every execution of `getShelters` and `refreshShelters`, the
result carries a diagnostic error string if and only if its source tag
is not `api`: every `cache` and `fallback` result has a non-empty error
message, every `api` result omits the error field. -/
theorem error_iff_not_api (env : Env) (st : Storage) :
    (∀ r st', getShelters env st = .ok (r, st') →
       ((r.error = none ↔ r.source = .api) ∧
        (r.source ≠ .api → ∃ m, r.error = some m ∧ m ≠ ""))) ∧
    (∀ r st', refreshShelters env st = .ok (r, st') →
       ((r.error = none ↔ r.source = .api) ∧
        (r.source ≠ .api → ∃ m, r.error = some m ∧ m ≠ ""))) := by
  have key : ∀ (f : Except String (ShelterServiceResult × Storage))
      (a : ShelterServiceResult × Storage), f = .ok a →
      ((a.1.error = none ↔ a.1.source = .api) ∧
       (a.1.source ≠ .api → ∃ m, a.1.error = some m ∧ m ≠ "")) →
      ∀ r st', f = .ok (r, st') →
        ((r.error = none ↔ r.source = .api) ∧
         (r.source ≠ .api → ∃ m, r.error = some m ∧ m ≠ "")) := by
    intro f a ha hp r st' h
    rw [ha] at h
    simp only [Except.ok.injEq] at h
    subst h
    exact hp
  constructor
  · rcases fetch_cases env with ⟨es, hf, hne⟩ | hf | ⟨msg, hf⟩
    · exact key _ _ (getShelters_api env st es hf hne) (by simp)
    · rcases load_cases env st with ⟨c, hl, hcne⟩ | hl
      · exact key _ _ (getShelters_emptyApi_cache env st c hf hl hcne)
          ⟨by simp, fun _ => ⟨_, rfl, by decide⟩⟩
      · exact key _ _ (getShelters_fallback env st (Or.inl hf) hl)
          ⟨by simp [fallbackResult], fun _ => ⟨_, rfl, by decide⟩⟩
    · rcases load_cases env st with ⟨c, hl, hcne⟩ | hl
      · exact key _ _ (getShelters_err_cache env st c msg hf hl hcne)
          ⟨by simp, fun _ => ⟨_, rfl, append_ne_empty _ _ (by decide)⟩⟩
      · exact key _ _ (getShelters_fallback env st (Or.inr ⟨msg, hf⟩) hl)
          ⟨by simp [fallbackResult], fun _ => ⟨_, rfl, by decide⟩⟩
  · rcases fetch_cases env with ⟨es, hf, hne⟩ | hf | ⟨msg, hf⟩
    · exact key _ _ (refreshShelters_api env st es hf hne) (by simp)
    · rcases load_cases env st with ⟨c, hl, hcne⟩ | hl
      · exact key _ _ (refreshShelters_emptyApi_cache env st c hf hl hcne)
          ⟨by simp, fun _ => ⟨_, rfl, by decide⟩⟩
      · exact key _ _ (refreshShelters_emptyApi_fallback env st hf hl)
          ⟨by simp, fun _ => ⟨_, rfl, by decide⟩⟩
    · rcases load_cases env st with ⟨c, hl, hcne⟩ | hl
      · exact key _ _ (refreshShelters_err_cache env st c msg hf hl hcne)
          ⟨by simp, fun _ => ⟨_, rfl, append_ne_empty _ _ (by decide)⟩⟩
      · exact key _ _ (refreshShelters_err_fallback env st msg hf hl)
          ⟨by simp, fun _ => ⟨_, rfl, append_ne_empty _ _ (by decide)⟩⟩

/-- Witness for C9: the fallback result of a run with all endpoints
throwing carries a non-empty error and is not tagged `api`. -/
theorem error_iff_not_api_witness :
    (fallbackResult.error = none ↔ fallbackResult.source = .api) ∧
    (fallbackResult.source ≠ .api → ∃ m, fallbackResult.error = some m ∧ m ≠ "") :=
  (error_iff_not_api envAllThrow stEmpty).1 fallbackResult stEmpty (by decide)

/-- C10: save-then-load round trip: when the store's write and read
succeed, saving a non-empty list and loading it back (with no
intervening write, at any later time, including past the 24-hour
freshness window) returns exactly the saved list; staleness never
withholds stored data (the load result does not depend on the clock). -/
theorem cache_roundtrip (envS envL : Env) (s : List Shelter) (st : Storage)
    (hsave : envS.saveFails = false) (hload : envL.loadFails = false) (hne : s ≠ []) :
    loadFromCache envL (saveToCache envS s st) = some s ∧
    (cacheIsStale envL (saveToCache envS s st) = true →
      loadFromCache envL (saveToCache envS s st) = some s) ∧
    (∀ n₁ n₂ : Nat, loadFromCache { envL with now := n₁ } (saveToCache envS s st) =
                    loadFromCache { envL with now := n₂ } (saveToCache envS s st)) := by
  refine ⟨?_, fun _ => ?_, fun n₁ n₂ => ?_⟩ <;>
    simp [loadFromCache, saveToCache, hsave, hload]

/-- Witness for C10: a list saved at time 0 and loaded at time 200000000
(well past the 24-hour window, so the cache is stale) is returned
unchanged. -/
theorem cache_roundtrip_witness :
    cacheIsStale envStale (saveToCache envSave [shelterA] stEmpty) = true ∧
    loadFromCache envStale (saveToCache envSave [shelterA] stEmpty) = some [shelterA] :=
  ⟨by decide,
   (cache_roundtrip envSave envStale [shelterA] stEmpty (by decide) (by decide) (by decide)).1⟩

end Safr

